import Mathlib

/-!
Verification of `algorithmic_efficiency/workloads/fastmri/fastmri_jax/workload.py`,
the FastMRI workload adapter implemented in Jax.

Shallow embedding conventions:
* Tensor values are rationals (`ℚ`); a batched tensor is a `List (List ℚ)`:
  the outer list is the batch dimension, the inner list holds the flattened
  non-batch dimensions of one example (a mean over all non-batch axes equals
  the mean over the flattened example, so this loses nothing for `loss_fn`).
* External collaborators (the UNet model, the `ssim` metric, the input-queue
  builder and the rng splitter from other modules of the repository) are
  fields of an environment record `Env`; this file only verifies how the
  workload wires them together, never their internals.
* The workload object's mutable fields (`_param_shapes`, `_eval_iters`) are
  threaded as an explicit `WorkloadState`; `dict` caches are association
  lists, a Python iterator is a stream together with a cursor position.
* A `dict` lookup that may raise `KeyError` returns an `Option`.
-/

/-- `spec.ForwardPassMode` of the workload interface. -/
inductive ForwardPassMode where
  | TRAIN
  | EVAL
  deriving DecidableEq, Repr

/-- Modelled from the spec: the loss-kind enumeration `spec.LossType` of the
workload interface (the interface module is outside this file); the spec says
an unrecognized loss kind may be requested, so the enumeration carries the
four kinds named by the activation selector plus a further kind
(`CTC_LOSS`) that the selector does not handle. -/
inductive LossType where
  | SOFTMAX_CROSS_ENTROPY
  | SIGMOID_CROSS_ENTROPY
  | MEAN_SQUARED_ERROR
  | MEAN_ABSOLUTE_ERROR
  | CTC_LOSS
  deriving DecidableEq, Repr

/-- Mean of a list of rationals (`jnp.mean` over the flattened axes). -/
def meanQ (xs : List ℚ) : ℚ :=
  xs.sum / xs.length

/-- `loss_fn`: `jnp.abs(outputs_batch - label_batch).mean(axis=tuple(range(1,
outputs_batch.ndim)))` — per batch element, the mean absolute difference over
all non-batch axes.  Does NOT apply regularization (left to the submitter). -/
def loss_fn (label_batch outputs_batch : List (List ℚ)) : List ℚ :=
  (outputs_batch.zip label_batch).map
    (fun p => meanQ ((p.1.zip p.2).map (fun q => |q.1 - q.2|)))

/-- The `activation_fn` dictionary built inside `output_activation_fn`,
keyed by loss type; `softmax` and `sigmoid` are the external
`jax.nn.softmax` / `jax.nn.sigmoid`. -/
def activation_fn_table (T : Type) (softmax sigmoid : T → T) :
    List (LossType × (T → T)) :=
  [(LossType.SOFTMAX_CROSS_ENTROPY, softmax),
   (LossType.SIGMOID_CROSS_ENTROPY, sigmoid),
   (LossType.MEAN_SQUARED_ERROR, fun z => z),
   (LossType.MEAN_ABSOLUTE_ERROR, fun z => z)]

/-- Association-list lookup mirroring a Python `dict[key]` access:
`none` is the `KeyError` case. -/
def dictLookup {κ α : Type} [DecidableEq κ] (k : κ) :
    List (κ × α) → Option α
  | [] => none
  | (k', a) :: rest => if k = k' then some a else dictLookup k rest

/-- `output_activation_fn`: look the loss type up in the activation table and
apply the transform to the logits; an absent key is a `KeyError` (`none`). -/
def output_activation_fn (T : Type) (softmax sigmoid : T → T)
    (logits_batch : T) (loss_type : LossType) : Option T :=
  match dictLookup loss_type (activation_fn_table T softmax sigmoid) with
  | some f => some (f logits_batch)
  | none => none

/-- One tensor of a parameter tree: its shape and flattened data. -/
structure TensorQ where
  shape : List ℕ
  data : List ℚ
  deriving DecidableEq, Repr

/-- A parameter tree, modelled as a flat name-to-tensor map (one level of
the nested mapping; the depth of the nesting is irrelevant to this file). -/
abbrev ParamTree := List (String × TensorQ)

/-- A batch as delivered by the input pipeline: inputs plus targets,
normalization statistics and per-example weights. -/
structure Batch (Input : Type) where
  inputs : Input
  targets : List (List ℚ)
  mean : List ℚ
  std : List ℚ
  volume_max : List ℚ
  weights : List ℚ

/-- The external collaborators of the workload, over `D` local devices:
the UNet's `init`/`apply`, the `ssim` metric, `build_input_queue` and the
`prng` splitting utilities.  `unetApply dr params inputs rng train` is
`models.UNet(dropout_rate=dr).apply({'params': params}, inputs,
rngs={'dropout': rng}, train=train)`. -/
structure Env (Input Rng Params : Type) (D : ℕ) where
  unetApply : Option ℚ → Params → Input → Rng → Bool → List (List ℚ)
  unetInit : Rng → (Fin 13 → Fin 320 → Fin 320 → ℚ) → ParamTree
  ssimFn : List (List ℚ) → List (List ℚ) → List ℚ → List ℚ → List ℚ → List ℚ
  buildInputQueue : Rng → String → String → ℕ → (ℕ → Fin D → Batch Input)
  prngSplit2 : Rng → Rng × Rng
  prngSplitDevices : Rng → Fin D → Rng

/-- A cached evaluation iterator: the underlying (infinite, repeating)
stream of device-sharded batches and the cursor reached by `next`. -/
structure EvalIter (Input : Type) (D : ℕ) where
  stream : ℕ → Fin D → Batch Input
  pos : ℕ

/-- The mutable state of a `FastMRIWorkload` object. -/
structure WorkloadState (Input : Type) (D : ℕ) where
  param_shapes : Option (List (String × List ℕ))
  eval_iters : List (String × EvalIter Input D)

/-- `jnp.zeros((13, 320, 320))`, the synthetic input of `init_model_fn`. -/
def fake_batch : Fin 13 → Fin 320 → Fin 320 → ℚ :=
  fun _ _ _ => 0

/-- `jax.tree_map(lambda x: spec.ShapeTuple(x.shape), params)`. -/
def treeShapes (params : ParamTree) : List (String × List ℕ) :=
  params.map (fun p => (p.1, p.2.shape))

/-- `flax.jax_utils.replicate`: one copy of the parameters per device. -/
def jaxReplicate {Params : Type} (D : ℕ) (params : Params) : Fin D → Params :=
  fun _ => params

/-- `init_model_fn`: initialize the UNet on the all-zero fake batch, record
the parameter shapes on the workload, replicate the parameters across the
devices, and return them with a `None` auxiliary state. -/
def init_model_fn {Input Rng Params : Type} {D : ℕ}
    (env : Env Input Rng Params D) (st : WorkloadState Input D) (rng : Rng) :
    WorkloadState Input D × (Fin D → ParamTree) × Option Unit :=
  let params := env.unetInit rng fake_batch
  let st' : WorkloadState Input D :=
    { st with param_shapes := some (treeShapes params) }
  (st', jaxReplicate D params, none)

/-- `model_fn`: apply the UNet with `train = (mode == TRAIN)`; the auxiliary
model state of the returned pair is always `None`
(`model_state`, `aux_dropout_rate` and `update_batch_norm` are deleted). -/
def model_fn {Input Rng Params : Type} {D : ℕ}
    (env : Env Input Rng Params D) (params : Params)
    (batch : Batch Input) (mode : ForwardPassMode) (rng : Rng)
    (dropout_rate : Option ℚ) : List (List ℚ) × Option Unit :=
  let train := mode = ForwardPassMode.TRAIN
  (env.unetApply dropout_rate params batch.inputs rng train, none)

/-- The metrics dict `{'ssim': …, 'loss': …, 'weight': …}` of `_eval_model`
(and the accumulator `total_metrics` of `_eval_model_on_split`). -/
structure Metrics where
  ssim : ℚ
  loss : ℚ
  weight : ℚ
  deriving DecidableEq, Repr

instance : Add Metrics where
  add a b := ⟨a.ssim + b.ssim, a.loss + b.loss, a.weight + b.weight⟩

/-- The body of `_eval_model` on one device's batch shard, before the
cross-device reduction: forward pass in `EVAL` mode with dropout rate `0.0`,
then the sums of the per-example ssim values, per-example losses and batch
weights. -/
def evalModelLocal {Input Rng Params : Type} {D : ℕ}
    (env : Env Input Rng Params D) (params : Params)
    (batch : Batch Input) (rng : Rng) : Metrics :=
  let outputs :=
    (model_fn env params batch ForwardPassMode.EVAL rng (some 0)).1
  { ssim :=
      (env.ssimFn batch.targets outputs batch.mean batch.std
        batch.volume_max).sum,
    loss := (loss_fn batch.targets outputs).sum,
    weight := batch.weights.sum }

/-- `jax.lax.psum` over the `'batch'` (device) axis: every device receives
the componentwise sum over all devices. -/
def psum {D : ℕ} (ms : Fin D → Metrics) : Fin D → Metrics :=
  fun _ => ⟨∑ i, (ms i).ssim, ∑ i, (ms i).loss, ∑ i, (ms i).weight⟩

/-- `_eval_model`, `pmap`-ed over the device axis: each device evaluates its
shard of the batch with its rng, and the results are `psum`-reduced. -/
def evalModel {Input Rng Params : Type} {D : ℕ}
    (env : Env Input Rng Params D) (params : Params)
    (batch : Fin D → Batch Input) (rngs : Fin D → Rng) : Fin D → Metrics :=
  psum (fun i => evalModelLocal env params (batch i) (rngs i))

/-- `int(math.ceil(num_examples / global_batch_size))` (exact ceiling
division; Python's float division is modelled as exact). -/
def ceilBatches (num_examples global_batch_size : ℕ) : ℕ :=
  (num_examples + global_batch_size - 1) / global_batch_size

/-- The loop of `_eval_model_on_split`: starting from
`{'ssim': 0., 'loss': 0., 'weight': 0.}`, add the drawn metrics of batches
`0, 1, …, n-1` in order. -/
def evalLoop (draw : ℕ → Metrics) : ℕ → Metrics
  | 0 => ⟨0, 0, 0⟩
  | n + 1 => evalLoop draw n + draw n

/-- The `synced_metrics[k][0]` contribution of the `i`-th `next(…)` call on
an iterator: the device-summed metrics of the batch at the iterator's
cursor plus `i`, as read on device `0`. -/
def drawMetrics {Input Rng Params : Type} {D : ℕ}
    (env : Env Input Rng Params D) (params : Params)
    (it : EvalIter Input D) (rngs : Fin D → Rng) (hD : 0 < D) (i : ℕ) :
    Metrics :=
  evalModel env params (it.stream (it.pos + i)) rngs ⟨0, hD⟩

/-- Replace the cached iterator of `split` (in-place mutation of the cached
iterator object by `next` is modelled as updating its cursor). -/
def updateIter {Input : Type} {D : ℕ} (split : String)
    (it : EvalIter Input D) :
    List (String × EvalIter Input D) → List (String × EvalIter Input D)
  | [] => []
  | (s, it') :: rest =>
      if split = s then (s, it) :: rest
      else (s, it') :: updateIter split it rest

/-- The iterator `_eval_model_on_split` draws from: the cached one when the
split is present in `_eval_iters`, otherwise a fresh
`build_input_queue(data_rng, split, data_dir, global_batch_size,
repeat_final_dataset=True)` at cursor `0`, where `data_rng` is the first
half of the rng split. -/
def splitEvalIter {Input Rng Params : Type} {D : ℕ}
    (env : Env Input Rng Params D) (st : WorkloadState Input D)
    (split : String) (global_batch_size : ℕ) (rng : Rng)
    (data_dir : String) : EvalIter Input D :=
  match dictLookup split st.eval_iters with
  | some it => it
  | none =>
      ⟨env.buildInputQueue (env.prngSplit2 rng).1 split data_dir
        global_batch_size, 0⟩

/-- `eval_rngs = prng.split(model_rng, jax.local_device_count())` where
`model_rng` is the second half of the rng split. -/
def evalRngs {Input Rng Params : Type} {D : ℕ}
    (env : Env Input Rng Params D) (rng : Rng) : Fin D → Rng :=
  env.prngSplitDevices (env.prngSplit2 rng).2

/-- `_eval_model_on_split`: split the rng, lazily build and cache the
split's (indefinitely repeating) input iterator, draw
`int(math.ceil(num_examples / global_batch_size))` batches, accumulate the
device-reduced metric sums, pop the accumulated `'weight'` and divide the
remaining entries by it.  Returns the new workload state and the result
dict (an association list with keys `'ssim'` and `'loss'`). -/
def eval_model_on_split {Input Rng Params : Type} {D : ℕ} (hD : 0 < D)
    (env : Env Input Rng Params D) (st : WorkloadState Input D)
    (split : String) (num_examples global_batch_size : ℕ) (params : Params)
    (rng : Rng) (data_dir : String) :
    WorkloadState Input D × List (String × ℚ) :=
  let it := splitEvalIter env st split global_batch_size rng data_dir
  let iters :=
    match dictLookup split st.eval_iters with
    | some _ => st.eval_iters
    | none => (split, it) :: st.eval_iters
  let num_batches := ceilBatches num_examples global_batch_size
  let total :=
    evalLoop (drawMetrics env params it (evalRngs env rng) hD) num_batches
  let st' : WorkloadState Input D :=
    { st with
        eval_iters :=
          updateIter split ⟨it.stream, it.pos + num_batches⟩ iters }
  (st',
   [("ssim", total.ssim / total.weight), ("loss", total.loss / total.weight)])

/-! ### Concrete test fixtures (used by the evaluation witnesses) -/

/-- A concrete batch whose single example weighs `n + 1`. -/
def testBatch (n : ℕ) : Batch Unit :=
  ⟨(), [[1, 3]], [0], [1], [1], [(n : ℚ) + 1]⟩

/-- A concrete batch of total weight `0`. -/
def testBatchZeroWeight : Batch Unit :=
  ⟨(), [[1, 3]], [0], [1], [1], [0]⟩

/-- A concrete single-device environment: the network always outputs
`[[2, 5]]`, the ssim of a batch is its example count, and the input queue
yields `testBatch 0, testBatch 1, …`. -/
def testEnv : Env Unit Unit Unit 1 :=
  ⟨fun _ _ _ _ _ => [[2, 5]],
   fun _ _ => [("w", ⟨[2], [0, 0]⟩)],
   fun t _ _ _ _ => [(t.length : ℚ)],
   fun _ _ _ _ => fun n _ => testBatch n,
   fun r => (r, r),
   fun r _ => r⟩

/-- A workload state with an empty iterator cache. -/
def testState : WorkloadState Unit 1 :=
  ⟨none, []⟩

/-- A cached iterator yielding `testBatch 0, testBatch 1, …`. -/
def testIterA : EvalIter Unit 1 :=
  ⟨fun n _ => testBatch n, 0⟩

/-- A cached iterator yielding the first two test batches in the swapped
order `testBatch 1, testBatch 0, …`. -/
def testIterB : EvalIter Unit 1 :=
  ⟨fun n _ => testBatch (1 - n), 0⟩

/-- A cached iterator of zero-weight batches. -/
def testIterZ : EvalIter Unit 1 :=
  ⟨fun _ _ => testBatchZeroWeight, 0⟩

/-- A state caching `testIterA` for split `"test"`. -/
def testStateA : WorkloadState Unit 1 :=
  ⟨none, [("test", testIterA)]⟩

/-- A state caching `testIterB` for split `"test"`. -/
def testStateB : WorkloadState Unit 1 :=
  ⟨none, [("test", testIterB)]⟩

/-- A state caching `testIterZ` for split `"test"`. -/
def testStateZ : WorkloadState Unit 1 :=
  ⟨none, [("test", testIterZ)]⟩

/-! ### Helper lemmas -/

theorem Metrics.add_def (a b : Metrics) :
    a + b = ⟨a.ssim + b.ssim, a.loss + b.loss, a.weight + b.weight⟩ :=
  rfl

theorem evalLoop_eq_sum (draw : ℕ → Metrics) (n : ℕ) :
    evalLoop draw n =
      ⟨∑ i in Finset.range n, (draw i).ssim,
       ∑ i in Finset.range n, (draw i).loss,
       ∑ i in Finset.range n, (draw i).weight⟩ := by
  induction n with
  | zero => simp [evalLoop]
  | succ n ih =>
      simp [evalLoop, ih, Metrics.add_def, Finset.sum_range_succ]

theorem sum_map_zip_abs (a b : List ℚ) :
    ((a.zip b).map (fun q => |q.1 - q.2|)).sum =
      ∑ j in Finset.range (min a.length b.length),
        |a.getD j 0 - b.getD j 0| := by
  induction a generalizing b with
  | nil => simp
  | cons x xs ih =>
      cases b with
      | nil => simp
      | cons y ys =>
          have hmin : min (xs.length + 1) (ys.length + 1) =
              min xs.length ys.length + 1 := Nat.succ_min_succ _ _
          simp only [List.zip_cons_cons, List.map_cons, List.sum_cons,
            List.length_cons, hmin, Finset.sum_range_succ']
          simp [ih ys, add_comm]

theorem loss_fn_getD (label_batch outputs_batch : List (List ℚ)) (i : ℕ)
    (hi : i < outputs_batch.length)
    (hlen : outputs_batch.length = label_batch.length) :
    (loss_fn label_batch outputs_batch).getD i 0 =
      meanQ (((outputs_batch.getD i []).zip (label_batch.getD i [])).map
        (fun q => |q.1 - q.2|)) := by
  have hz : i < (outputs_batch.zip label_batch).length := by
    rw [List.length_zip]; omega
  have hm : i < ((outputs_batch.zip label_batch).map
      (fun p => meanQ ((p.1.zip p.2).map (fun q => |q.1 - q.2|)))).length := by
    simpa using hz
  unfold loss_fn
  rw [List.getD_eq_getElem _ _ hm, List.getElem_map, List.getElem_zip,
    List.getD_eq_getElem _ _ hi, List.getD_eq_getElem _ _ (hlen ▸ hi)]

theorem loss_fn_eq_sum_div (label_batch outputs_batch : List (List ℚ))
    (i : ℕ) (hi : i < outputs_batch.length)
    (hlen : outputs_batch.length = label_batch.length)
    (hinner : (outputs_batch.getD i []).length =
      (label_batch.getD i []).length) :
    (loss_fn label_batch outputs_batch).getD i 0 =
      (∑ j in Finset.range (outputs_batch.getD i []).length,
          |(outputs_batch.getD i []).getD j 0 -
            (label_batch.getD i []).getD j 0|) /
        ((outputs_batch.getD i []).length : ℚ) := by
  rw [loss_fn_getD label_batch outputs_batch i hi hlen]
  unfold meanQ
  rw [sum_map_zip_abs]
  simp only [List.length_map, List.length_zip, ← hinner, min_self]

theorem ceilBatches_cast (a b : ℕ) (hb : 0 < b) :
    (ceilBatches a b : ℤ) = ⌈(a : ℚ) / (b : ℚ)⌉ := by
  have key : a ≤ b * ((a + b - 1) / b) ∧ b * ((a + b - 1) / b) < a + b := by
    have hmod := Nat.div_add_mod (a + b - 1) b
    have hmlt := Nat.mod_lt (a + b - 1) hb
    generalize b * ((a + b - 1) / b) = X at *
    omega
  have hbq : (0 : ℚ) < (b : ℚ) := by exact_mod_cast hb
  have hcast : ((((a + b - 1) / b : ℕ) : ℤ) : ℚ) =
      (((a + b - 1) / b : ℕ) : ℚ) := Int.cast_natCast _
  have h1 : (a : ℚ) ≤ (b : ℚ) * (((a + b - 1) / b : ℕ) : ℚ) := by
    exact_mod_cast key.1
  have h2 : (b : ℚ) * (((a + b - 1) / b : ℕ) : ℚ) < (a : ℚ) + b := by
    exact_mod_cast key.2
  unfold ceilBatches
  refine le_antisymm ?_ ?_
  · rw [Int.le_ceil_iff, lt_div_iff₀ hbq, hcast]
    nlinarith [h2]
  · rw [Int.ceil_le, div_le_iff₀ hbq, hcast]
    nlinarith [h1]

theorem dictLookup_updateIter_self {Input : Type} {D : ℕ} (split : String)
    (it : EvalIter Input D) (l : List (String × EvalIter Input D))
    (h : (dictLookup split l).isSome) :
    dictLookup split (updateIter split it l) = some it := by
  induction l with
  | nil => simp [dictLookup] at h
  | cons p rest ih =>
      obtain ⟨s, it'⟩ := p
      by_cases hs : split = s
      · simp [updateIter, dictLookup, hs]
      · simp only [updateIter, dictLookup, if_neg hs] at h ⊢
        exact ih h

theorem dictLookup_updateIter_ne {Input : Type} {D : ℕ} (split s' : String)
    (it : EvalIter Input D) (l : List (String × EvalIter Input D))
    (h : s' ≠ split) :
    dictLookup s' (updateIter split it l) = dictLookup s' l := by
  induction l with
  | nil => simp [updateIter]
  | cons p rest ih =>
      obtain ⟨s, it'⟩ := p
      by_cases hs : split = s
      · subst hs
        simp [updateIter, dictLookup, if_neg h]
      · simp only [updateIter, if_neg hs, dictLookup]
        by_cases hs' : s' = s
        · simp [hs']
        · simp [if_neg hs', ih]

/-! ### Claim theorems -/

/-- C2: for same-shaped `outputs` and `targets` batches, `loss_fn` returns,
for each batch element, the mean of the absolute differences between
outputs and targets over all non-batch dimensions, with no regularization
term added. -/
theorem loss_fn_is_mean_absolute_error
    (label_batch outputs_batch : List (List ℚ)) (i : ℕ)
    (hi : i < outputs_batch.length)
    (hlen : outputs_batch.length = label_batch.length)
    (hinner : (outputs_batch.getD i []).length =
      (label_batch.getD i []).length) :
    (loss_fn label_batch outputs_batch).getD i 0 =
      (∑ j in Finset.range (outputs_batch.getD i []).length,
          |(outputs_batch.getD i []).getD j 0 -
            (label_batch.getD i []).getD j 0|) /
        ((outputs_batch.getD i []).length : ℚ) :=
  loss_fn_eq_sum_div label_batch outputs_batch i hi hlen hinner

/-- Witness for C2: on `outputs = [[2, 5]]`, `targets = [[1, 3]]` the
per-example loss is `(|2-1| + |5-3|) / 2 = 3/2`. -/
theorem loss_fn_is_mean_absolute_error_witness :
    (loss_fn [[1, 3]] [[2, 5]]).getD 0 0 = 3 / 2 := by
  have h := loss_fn_is_mean_absolute_error [[1, 3]] [[2, 5]] 0
    (by decide) (by decide) (by decide)
  rw [h]
  norm_num [Finset.sum_range_succ, List.getD]

/-- C8: each per-example value returned by `loss_fn` is non-negative, and
is zero exactly when every element of that example's outputs equals the
corresponding element of the targets (examples are required to be
non-empty: on an empty example the mean is a `0/0` and carries no
information). -/
theorem loss_fn_nonneg_and_zero_iff
    (label_batch outputs_batch : List (List ℚ)) (i : ℕ)
    (hi : i < outputs_batch.length)
    (hlen : outputs_batch.length = label_batch.length)
    (hinner : (outputs_batch.getD i []).length =
      (label_batch.getD i []).length)
    (hpos : 0 < (outputs_batch.getD i []).length) :
    0 ≤ (loss_fn label_batch outputs_batch).getD i 0 ∧
    ((loss_fn label_batch outputs_batch).getD i 0 = 0 ↔
      ∀ j < (outputs_batch.getD i []).length,
        (outputs_batch.getD i []).getD j 0 =
          (label_batch.getD i []).getD j 0) := by
  rw [loss_fn_eq_sum_div label_batch outputs_batch i hi hlen hinner]
  have hlq : (0 : ℚ) < ((outputs_batch.getD i []).length : ℚ) := by
    exact_mod_cast hpos
  have habs : ∀ j ∈ Finset.range (outputs_batch.getD i []).length,
      0 ≤ |(outputs_batch.getD i []).getD j 0 -
        (label_batch.getD i []).getD j 0| :=
    fun j _ => abs_nonneg _
  constructor
  · exact div_nonneg (Finset.sum_nonneg habs) hlq.le
  · rw [div_eq_zero_iff, or_iff_left hlq.ne',
      Finset.sum_eq_zero_iff_of_nonneg habs]
    constructor
    · intro h j hj
      have := h j (Finset.mem_range.mpr hj)
      rw [abs_eq_zero, sub_eq_zero] at this
      exact this
    · intro h j hj
      rw [abs_eq_zero, sub_eq_zero]
      exact h j (Finset.mem_range.mp hj)

/-- Witness for C8: on `outputs = [[2, 5]]`, `targets = [[1, 3]]` the
per-example loss is non-negative and nonzero (the entries differ). -/
theorem loss_fn_nonneg_and_zero_iff_witness :
    0 ≤ (loss_fn [[1, 3]] [[2, 5]]).getD 0 0 ∧
    ((loss_fn [[1, 3]] [[2, 5]]).getD 0 0 = 0 ↔
      ∀ j < ([[(2 : ℚ), 5]].getD 0 []).length,
        ([[(2 : ℚ), 5]].getD 0 []).getD j 0 =
          ([[(1 : ℚ), 3]].getD 0 []).getD j 0) :=
  loss_fn_nonneg_and_zero_iff [[1, 3]] [[2, 5]] 0
    (by decide) (by decide) (by decide) (by decide)

/-- C4: `output_activation_fn` is the identity transform for the regression
loss kinds `MEAN_SQUARED_ERROR` and `MEAN_ABSOLUTE_ERROR`, and raises a
`KeyError` (`none`) exactly when the requested loss kind is not one of the
four kinds in its mapping. -/
theorem output_activation_fn_identity_and_keyerror (T : Type)
    (softmax sigmoid : T → T) (logits_batch : T) (loss_type : LossType) :
    (loss_type = LossType.MEAN_SQUARED_ERROR ∨
        loss_type = LossType.MEAN_ABSOLUTE_ERROR →
      output_activation_fn T softmax sigmoid logits_batch loss_type =
        some logits_batch) ∧
    (output_activation_fn T softmax sigmoid logits_batch loss_type = none ↔
      (loss_type ≠ LossType.SOFTMAX_CROSS_ENTROPY ∧
       loss_type ≠ LossType.SIGMOID_CROSS_ENTROPY ∧
       loss_type ≠ LossType.MEAN_SQUARED_ERROR ∧
       loss_type ≠ LossType.MEAN_ABSOLUTE_ERROR)) := by
  cases loss_type <;>
    simp [output_activation_fn, activation_fn_table, dictLookup]

/-- Witness for C4: at the `MEAN_SQUARED_ERROR` kind the logits `7` pass
through unchanged. -/
theorem output_activation_fn_identity_and_keyerror_witness :
    output_activation_fn ℚ id id 7 LossType.MEAN_SQUARED_ERROR = some 7 :=
  (output_activation_fn_identity_and_keyerror ℚ id id 7
    LossType.MEAN_SQUARED_ERROR).1 (Or.inl rfl)

/-- C5: `model_fn` always returns a `None` auxiliary model state, and it
applies the network with the stochastic-dropout (`train`) flag set exactly
when the mode is `TRAIN`. -/
theorem model_fn_aux_none_and_train_flag {Input Rng Params : Type} {D : ℕ}
    (env : Env Input Rng Params D) (params : Params) (batch : Batch Input)
    (mode : ForwardPassMode) (rng : Rng) (dropout_rate : Option ℚ) :
    (model_fn env params batch mode rng dropout_rate).2 = none ∧
    (model_fn env params batch mode rng dropout_rate).1 =
      env.unetApply dropout_rate params batch.inputs rng
        (if mode = ForwardPassMode.TRAIN then true else false) := by
  cases mode <;> simp [model_fn]

/-- C6: `init_model_fn` initializes the network on the all-zero synthetic
input, records the resulting parameter shapes in the workload state,
replicates the parameters onto every device, and returns them with a
`None` auxiliary state (the iterator cache is untouched). -/
theorem init_model_fn_shapes_replication_aux_none
    {Input Rng Params : Type} {D : ℕ} (env : Env Input Rng Params D)
    (st : WorkloadState Input D) (rng : Rng) :
    (init_model_fn env st rng).2.2 = none ∧
    (∀ dev : Fin D, (init_model_fn env st rng).2.1 dev =
      env.unetInit rng (fun _ _ _ => 0)) ∧
    (init_model_fn env st rng).1.param_shapes =
      some (treeShapes (env.unetInit rng (fun _ _ _ => 0))) ∧
    (init_model_fn env st rng).1.eval_iters = st.eval_iters :=
  ⟨rfl, fun _ => rfl, rfl, rfl⟩

/-- C3: on every device, `_eval_model` returns the `'ssim'`, `'loss'` and
`'weight'` sums of all devices' shards (the `psum` of the per-device sums),
where each shard's outputs come from the forward pass in `EVAL` mode
(`train = false`) with dropout rate `0`. -/
theorem eval_model_device_sums {Input Rng Params : Type} {D : ℕ}
    (env : Env Input Rng Params D) (params : Params)
    (batch : Fin D → Batch Input) (rngs : Fin D → Rng) (dev : Fin D) :
    evalModel env params batch rngs dev =
      { ssim := ∑ i, (env.ssimFn (batch i).targets
          (env.unetApply (some 0) params (batch i).inputs (rngs i) false)
          (batch i).mean (batch i).std (batch i).volume_max).sum,
        loss := ∑ i, (loss_fn (batch i).targets
          (env.unetApply (some 0) params (batch i).inputs (rngs i) false)).sum,
        weight := ∑ i, (batch i).weights.sum } :=
  rfl

/-- C1: with positive `num_examples` and `global_batch_size`,
`_eval_model_on_split` pulls exactly `⌈num_examples / global_batch_size⌉`
batches from the split's iterator, accumulates the per-batch device-summed
`'ssim'`, `'loss'` and `'weight'` values, and returns a mapping whose
`'ssim'` and `'loss'` entries are the accumulated sums divided by the
total accumulated example weight, with the `'weight'` entry removed. -/
theorem eval_model_on_split_normalized_metrics
    {Input Rng Params : Type} {D : ℕ} (hD : 0 < D)
    (env : Env Input Rng Params D) (st : WorkloadState Input D)
    (split : String) (num_examples global_batch_size : ℕ) (params : Params)
    (rng : Rng) (data_dir : String) (hnum : 0 < num_examples)
    (hgbs : 0 < global_batch_size) :
    (ceilBatches num_examples global_batch_size : ℤ) =
      ⌈(num_examples : ℚ) / (global_batch_size : ℚ)⌉ ∧
    dictLookup split
        (eval_model_on_split hD env st split num_examples global_batch_size
          params rng data_dir).1.eval_iters =
      some
        ⟨(splitEvalIter env st split global_batch_size rng data_dir).stream,
         (splitEvalIter env st split global_batch_size rng data_dir).pos +
           ceilBatches num_examples global_batch_size⟩ ∧
    dictLookup "ssim"
        (eval_model_on_split hD env st split num_examples global_batch_size
          params rng data_dir).2 =
      some
        ((∑ i in Finset.range (ceilBatches num_examples global_batch_size),
            (drawMetrics env params
              (splitEvalIter env st split global_batch_size rng data_dir)
              (evalRngs env rng) hD i).ssim) /
         (∑ i in Finset.range (ceilBatches num_examples global_batch_size),
            (drawMetrics env params
              (splitEvalIter env st split global_batch_size rng data_dir)
              (evalRngs env rng) hD i).weight)) ∧
    dictLookup "loss"
        (eval_model_on_split hD env st split num_examples global_batch_size
          params rng data_dir).2 =
      some
        ((∑ i in Finset.range (ceilBatches num_examples global_batch_size),
            (drawMetrics env params
              (splitEvalIter env st split global_batch_size rng data_dir)
              (evalRngs env rng) hD i).loss) /
         (∑ i in Finset.range (ceilBatches num_examples global_batch_size),
            (drawMetrics env params
              (splitEvalIter env st split global_batch_size rng data_dir)
              (evalRngs env rng) hD i).weight)) ∧
    dictLookup "weight"
        (eval_model_on_split hD env st split num_examples global_batch_size
          params rng data_dir).2 = none := by
  refine ⟨ceilBatches_cast _ _ hgbs, ?_, ?_, ?_, ?_⟩
  · cases h0 : dictLookup split st.eval_iters with
    | some it₀ =>
        simp only [eval_model_on_split, h0]
        refine dictLookup_updateIter_self _ _ _ ?_
        rw [h0]
        rfl
    | none =>
        simp only [eval_model_on_split, h0]
        simp [updateIter, dictLookup]
  · simp only [eval_model_on_split, evalLoop_eq_sum]
    simp [dictLookup]
  · simp only [eval_model_on_split, evalLoop_eq_sum]
    simp [dictLookup]
  · simp only [eval_model_on_split]
    simp [dictLookup]

/-- C7: the per-split iterator cache. A call leaves every other split's
entry unchanged; when the split is already cached the cached iterator is
reused (only its cursor advances, its stream is unchanged, and the result
does not depend on `build_input_queue` at all); when it is absent a fresh
iterator is built with `build_input_queue` and stored. -/
theorem eval_iters_cache_lazy_and_stable
    {Input Rng Params : Type} {D : ℕ} (hD : 0 < D)
    (env : Env Input Rng Params D) (st : WorkloadState Input D)
    (split : String) (num_examples global_batch_size : ℕ) (params : Params)
    (rng : Rng) (data_dir : String) :
    (∀ s', s' ≠ split →
      dictLookup s'
          (eval_model_on_split hD env st split num_examples
            global_batch_size params rng data_dir).1.eval_iters =
        dictLookup s' st.eval_iters) ∧
    (∀ it₀, dictLookup split st.eval_iters = some it₀ →
      dictLookup split
          (eval_model_on_split hD env st split num_examples
            global_batch_size params rng data_dir).1.eval_iters =
        some ⟨it₀.stream,
              it₀.pos + ceilBatches num_examples global_batch_size⟩) ∧
    (dictLookup split st.eval_iters = none →
      dictLookup split
          (eval_model_on_split hD env st split num_examples
            global_batch_size params rng data_dir).1.eval_iters =
        some ⟨env.buildInputQueue (env.prngSplit2 rng).1 split data_dir
                global_batch_size,
              ceilBatches num_examples global_batch_size⟩) ∧
    (∀ bq', dictLookup split st.eval_iters ≠ none →
      eval_model_on_split hD { env with buildInputQueue := bq' } st split
          num_examples global_batch_size params rng data_dir =
        eval_model_on_split hD env st split num_examples global_batch_size
          params rng data_dir) := by
  refine ⟨?_, ?_, ?_, ?_⟩
  · intro s' hs'
    cases h0 : dictLookup split st.eval_iters with
    | some it₀ =>
        simp only [eval_model_on_split, h0]
        rw [dictLookup_updateIter_ne split s' _ _ hs']
    | none =>
        simp only [eval_model_on_split, h0]
        rw [dictLookup_updateIter_ne split s' _ _ hs']
        simp [dictLookup, if_neg hs']
  · intro it₀ h0
    simp only [eval_model_on_split, splitEvalIter, h0]
    refine dictLookup_updateIter_self _ _ _ ?_
    rw [h0]
    rfl
  · intro h0
    simp only [eval_model_on_split, splitEvalIter, h0]
    simp [updateIter, dictLookup]
  · intro bq' h0
    cases h : dictLookup split st.eval_iters with
    | some it₀ =>
        simp only [eval_model_on_split, splitEvalIter, h]
        rfl
    | none => exact absurd h h0

/-- C9: the final metrics of `_eval_model_on_split` are invariant under a
permutation of the order in which the evaluation batches are drawn from
the split's iterator. -/
theorem eval_metrics_batch_order_invariant
    {Input Rng Params : Type} {D : ℕ} (hD : 0 < D)
    (env : Env Input Rng Params D) (st₁ st₂ : WorkloadState Input D)
    (split : String) (num_examples global_batch_size : ℕ) (params : Params)
    (rng : Rng) (data_dir : String) (it₁ it₂ : EvalIter Input D)
    (σ : Equiv.Perm (Fin (ceilBatches num_examples global_batch_size)))
    (h₁ : dictLookup split st₁.eval_iters = some it₁)
    (h₂ : dictLookup split st₂.eval_iters = some it₂)
    (hperm : ∀ i : Fin (ceilBatches num_examples global_batch_size),
      it₂.stream (it₂.pos + i) = it₁.stream (it₁.pos + σ i)) :
    (eval_model_on_split hD env st₂ split num_examples global_batch_size
      params rng data_dir).2 =
    (eval_model_on_split hD env st₁ split num_examples global_batch_size
      params rng data_dir).2 := by
  have hdraw : ∀ i : Fin (ceilBatches num_examples global_batch_size),
      drawMetrics env params it₂ (evalRngs env rng) hD i =
        drawMetrics env params it₁ (evalRngs env rng) hD (σ i) := by
    intro i
    unfold drawMetrics
    rw [hperm i]
  have hsum : ∀ f : Metrics → ℚ,
      ∑ i in Finset.range (ceilBatches num_examples global_batch_size),
        f (drawMetrics env params it₂ (evalRngs env rng) hD i) =
      ∑ i in Finset.range (ceilBatches num_examples global_batch_size),
        f (drawMetrics env params it₁ (evalRngs env rng) hD i) := by
    intro f
    rw [← Fin.sum_univ_eq_sum_range, ← Fin.sum_univ_eq_sum_range]
    calc ∑ i : Fin (ceilBatches num_examples global_batch_size),
          f (drawMetrics env params it₂ (evalRngs env rng) hD i) =
        ∑ i : Fin (ceilBatches num_examples global_batch_size),
          f (drawMetrics env params it₁ (evalRngs env rng) hD (σ i)) :=
          Finset.sum_congr rfl fun i _ => by rw [hdraw i]
      _ = ∑ i : Fin (ceilBatches num_examples global_batch_size),
          f (drawMetrics env params it₁ (evalRngs env rng) hD i) :=
          Equiv.sum_comp σ
            (fun j : Fin (ceilBatches num_examples global_batch_size) =>
              f (drawMetrics env params it₁ (evalRngs env rng) hD j))
  simp only [eval_model_on_split, splitEvalIter, h₁, h₂, evalLoop_eq_sum]
  rw [hsum Metrics.ssim, hsum Metrics.loss, hsum Metrics.weight]

/-- C10: when every drawn batch carries zero total example weight, the
accumulated `'weight'` sum is zero and `_eval_model_on_split` still
normalizes by it with no guard: the returned entries are literally the
accumulated sums divided by zero (the function returns normally, raising
no error of its own). -/
theorem eval_division_by_zero_weight
    {Input Rng Params : Type} {D : ℕ} (hD : 0 < D)
    (env : Env Input Rng Params D) (st : WorkloadState Input D)
    (split : String) (num_examples global_batch_size : ℕ) (params : Params)
    (rng : Rng) (data_dir : String)
    (hzero : ∀ i < ceilBatches num_examples global_batch_size,
      (drawMetrics env params
        (splitEvalIter env st split global_batch_size rng data_dir)
        (evalRngs env rng) hD i).weight = 0) :
    (evalLoop (drawMetrics env params
        (splitEvalIter env st split global_batch_size rng data_dir)
        (evalRngs env rng) hD)
      (ceilBatches num_examples global_batch_size)).weight = 0 ∧
    (eval_model_on_split hD env st split num_examples global_batch_size
        params rng data_dir).2 =
      [("ssim",
        (evalLoop (drawMetrics env params
            (splitEvalIter env st split global_batch_size rng data_dir)
            (evalRngs env rng) hD)
          (ceilBatches num_examples global_batch_size)).ssim / 0),
       ("loss",
        (evalLoop (drawMetrics env params
            (splitEvalIter env st split global_batch_size rng data_dir)
            (evalRngs env rng) hD)
          (ceilBatches num_examples global_batch_size)).loss / 0)] := by
  have hW : (evalLoop (drawMetrics env params
      (splitEvalIter env st split global_batch_size rng data_dir)
      (evalRngs env rng) hD)
      (ceilBatches num_examples global_batch_size)).weight = 0 := by
    rw [evalLoop_eq_sum]
    exact Finset.sum_eq_zero fun i hi => hzero i (Finset.mem_range.mp hi)
  refine ⟨hW, ?_⟩
  simp only [eval_model_on_split]
  rw [hW]

/-- Witness for C1: one device, `num_examples = 3`, `global_batch_size = 2`,
so `⌈3/2⌉ = 2` batches of weights `1` and `2` are drawn; per batch the ssim
sum is `1` and the loss sum is `3/2`, giving `ssim = 2/3` and
`loss = 3/3 = 1`, with no `'weight'` entry. -/
theorem eval_model_on_split_normalized_metrics_witness :
    dictLookup "ssim"
        (eval_model_on_split Nat.one_pos testEnv testState "validation" 3 2
          () () "d").2 = some (2 / 3) ∧
    dictLookup "loss"
        (eval_model_on_split Nat.one_pos testEnv testState "validation" 3 2
          () () "d").2 = some 1 ∧
    dictLookup "weight"
        (eval_model_on_split Nat.one_pos testEnv testState "validation" 3 2
          () () "d").2 = none := by
  have h := eval_model_on_split_normalized_metrics Nat.one_pos testEnv
    testState "validation" 3 2 () () "d" (by decide) (by decide)
  refine ⟨?_, ?_, h.2.2.2.2⟩
  · rw [h.2.2.1]
    norm_num [ceilBatches, Finset.sum_range_succ, drawMetrics, evalModel,
      psum, evalModelLocal, model_fn, splitEvalIter, evalRngs, testEnv,
      testState, testBatch, dictLookup, loss_fn, meanQ, Fin.sum_univ_one,
      List.getD]
  · rw [h.2.2.2.1]
    norm_num [ceilBatches, Finset.sum_range_succ, drawMetrics, evalModel,
      psum, evalModelLocal, model_fn, splitEvalIter, evalRngs, testEnv,
      testState, testBatch, dictLookup, loss_fn, meanQ, Fin.sum_univ_one,
      List.getD]

/-- Witness for C7: with `testIterA` cached for `"test"`, a call leaves the
`"other"` entry alone and advances the cached iterator's cursor by
`⌈3/2⌉ = 2` without replacing its stream. -/
theorem eval_iters_cache_lazy_and_stable_witness :
    dictLookup "other"
        (eval_model_on_split Nat.one_pos testEnv testStateA "test" 3 2 () ()
          "d").1.eval_iters = dictLookup "other" testStateA.eval_iters ∧
    dictLookup "test"
        (eval_model_on_split Nat.one_pos testEnv testStateA "test" 3 2 () ()
          "d").1.eval_iters =
      some ⟨testIterA.stream, testIterA.pos + ceilBatches 3 2⟩ := by
  have h := eval_iters_cache_lazy_and_stable Nat.one_pos testEnv testStateA
    "test" 3 2 () () "d"
  exact ⟨h.1 "other" (by decide),
    h.2.1 testIterA (by simp [testStateA, dictLookup])⟩

/-- Witness for C9: drawing the two test batches in swapped order yields
the same returned metrics. -/
theorem eval_metrics_batch_order_invariant_witness :
    (eval_model_on_split Nat.one_pos testEnv testStateB "test" 2 1 () ()
      "d").2 =
    (eval_model_on_split Nat.one_pos testEnv testStateA "test" 2 1 () ()
      "d").2 := by
  refine eval_metrics_batch_order_invariant Nat.one_pos testEnv testStateA
    testStateB "test" 2 1 () () "d" testIterA testIterB
    (Equiv.swap ⟨0, by decide⟩ ⟨1, by decide⟩) ?_ ?_ ?_
  · simp [testStateA, dictLookup]
  · simp [testStateB, dictLookup]
  · intro i
    rcases i with ⟨iv, hiv⟩
    have h2 : iv < 2 := hiv
    interval_cases iv <;> rfl

/-- Witness for C10: two zero-weight batches are drawn; the accumulated
ssim sum is `2` and loss sum is `3`, and both are divided by the zero
accumulated weight. -/
theorem eval_division_by_zero_weight_witness :
    (eval_model_on_split Nat.one_pos testEnv testStateZ "test" 3 2 () ()
      "d").2 = [("ssim", 2 / 0), ("loss", 3 / 0)] := by
  have h := eval_division_by_zero_weight Nat.one_pos testEnv testStateZ
    "test" 3 2 () () "d" ?hz
  case hz =>
    intro i hi
    simp [drawMetrics, evalModel, psum, evalModelLocal, model_fn,
      splitEvalIter, testStateZ, testIterZ, testBatchZeroWeight, testEnv,
      dictLookup, Fin.sum_univ_one]
  rw [h.2]
  norm_num [ceilBatches, evalLoop_eq_sum, Finset.sum_range_succ,
    drawMetrics, evalModel, psum, evalModelLocal, model_fn, splitEvalIter,
    evalRngs, testStateZ, testIterZ, testBatchZeroWeight, testEnv,
    dictLookup, loss_fn, meanQ, Fin.sum_univ_one, List.getD]
